import Mathlib

/-!
Shallow embedding of the attendance server (src/server.js) for the
Ignisight/attendance-server repository, together with theorems settling the
frozen claims C1 to C10.

Modelling conventions:
* JavaScript strings are `List Char` (ASCII fragment of `toLowerCase`,
  `toUpperCase`, `trim`).
* Timestamps (`Date.now()` values and ISO strings that only ever carry a
  millisecond instant) are `Int` milliseconds.
* JSON numbers (the latitude and longitude fields) are `ℚ`; an absent or
  `null` field is `none`.  JavaScript truthiness on such a value is
  `jsTruthy` (both `null`/`undefined` and `0` are falsy).
* The in-memory store `db` is the `DB` structure; `saveDB` is a synchronous
  whole-file write with no observable effect on the store, so it is not
  modelled.
* The handler for `POST /submit` (server.js lines 361-443) reads the
  variable `dup` at line 398 (`if (dup) { ... }`), but `dup` is never
  declared anywhere in the repository.  In Node.js this reading of an
  undeclared identifier throws `ReferenceError: dup is not defined`, so
  every request that reaches line 398 fails with an uncaught exception
  (Express answers HTTP 500) and the store is left unchanged.  The embedding
  represents this outcome by the result `SubmitResult.refErrorDup`; the code
  at lines 402-443 (time window, geofence, record append) is unreachable.
-/

namespace AttendanceServer

/-- JavaScript strings are modelled as lists of characters. -/
abbrev Str := List Char

/-- ASCII lowering of one character, the fragment of `String.prototype.toLowerCase`
exercised by this server (email addresses and roll numbers are ASCII). -/
def jsLowerChar (c : Char) : Char :=
  if 65 ≤ c.toNat ∧ c.toNat ≤ 90 then Char.ofNat (c.toNat + 32) else c

/-- ASCII raising of one character, the fragment of `String.prototype.toUpperCase`
exercised by this server. -/
def jsUpperChar (c : Char) : Char :=
  if 97 ≤ c.toNat ∧ c.toNat ≤ 122 then Char.ofNat (c.toNat - 32) else c

/-- `s.toLowerCase()`. -/
def jsToLower (s : Str) : Str := s.map jsLowerChar

/-- `s.toUpperCase()`. -/
def jsToUpper (s : Str) : Str := s.map jsUpperChar

/-- `s.trim()`: strip whitespace from both ends. -/
def jsTrim (s : Str) : Str :=
  ((s.dropWhile Char.isWhitespace).reverse.dropWhile Char.isWhitespace).reverse

/-- `email.split('@')[0]`: the part of the string before the first `@`
(the whole string when there is no `@`). -/
def beforeAt (s : Str) : Str := s.takeWhile (fun c => c != '@')

/-- `s.endsWith(suffix)`. -/
def jsEndsWith (s suffix : Str) : Bool := suffix.isSuffixOf s

/-- `ALLOWED_EMAIL_DOMAIN` (server.js line 21). -/
def ALLOWED_EMAIL_DOMAIN : Str := "nitjsr.ac.in".toList

/-- Character class `\d` of the roll regex (server.js line 44). -/
def isDigitC (c : Char) : Bool := 48 ≤ c.toNat ∧ c.toNat ≤ 57

/-- Character class `[a-z]` under the regex flag `i` (server.js line 44). -/
def isLetterCI (c : Char) : Bool :=
  (97 ≤ c.toNat ∧ c.toNat ≤ 122) ∨ (65 ≤ c.toNat ∧ c.toNat ≤ 90)

/-- The alternative `(ug|pg)` of the roll regex under the flag `i`. -/
def isProgCI (p : Str) : Bool :=
  p.map jsLowerChar = ['u', 'g'] ∨ p.map jsLowerChar = ['p', 'g']

/-- Result record of `parseRollInfo` (server.js lines 46-54). -/
structure RollInfo where
  year : Str
  program : Str
  branch : Str
  rollNo : Str
  rollNumber : Str
deriving DecidableEq

/-- Matcher for the anchored regex `/^(\d{4})(ug|pg)([a-z]{2,4})(\d+)$/i`
(server.js line 44), returning the four capture groups.  Because the letter
class and the digit class are disjoint, the backtracking search of the regex
engine matches exactly when the input splits as four digits, `ug`/`pg`, a
maximal run of two to four letters, and a nonempty tail of digits; the
greedy groups are recovered with `take`/`takeWhile`. -/
def matchRoll (l : Str) : Option (Str × Str × Str × Str) :=
  let y := l.take 4
  let rest := l.drop 4
  let p := rest.take 2
  let rest2 := rest.drop 2
  let b := rest2.takeWhile isLetterCI
  let r := rest2.dropWhile isLetterCI
  if y.length = 4 ∧ y.all isDigitC ∧ isProgCI p ∧
      2 ≤ b.length ∧ b.length ≤ 4 ∧ r ≠ [] ∧ r.all isDigitC then
    some (y, p, b, r)
  else
    none

/-- Body of `parseRollInfo` after the local-part has been extracted and
lowercased (server.js lines 44-54). -/
def parseLocal (localPart : Str) : RollInfo :=
  match matchRoll localPart with
  | some (y, p, b, r) =>
      { year := y, program := jsToUpper p, branch := jsToUpper b,
        rollNo := r, rollNumber := jsToUpper localPart }
  | none =>
      { year := ['-'], program := ['-'], branch := ['-'], rollNo := ['-'],
        rollNumber := jsToUpper localPart }

/-- `parseRollInfo(email)` (server.js lines 41-55):
`const local = email.split('@')[0].toLowerCase();` then the regex match. -/
def parseRollInfo (email : Str) : RollInfo :=
  parseLocal (jsToLower (beforeAt email))

/-- A session record as pushed by `POST /api/start-session`
(server.js lines 459-467); `stoppedAt` is absent until a stop or the expiry
sweep sets it. -/
structure Session where
  id : Int
  name : Str
  code : Str
  createdAt : Int
  active : Bool
  stoppedAt : Option Int
  lat : Option ℚ
  lon : Option ℚ
deriving DecidableEq

/-- An attendance record as pushed by `POST /submit`
(server.js lines 427-439); the locale-formatted `date`/`time` strings render
the same instant as `submittedAt` and are not modelled separately. -/
structure Attendance where
  sessionId : Int
  email : Str
  name : Str
  regNo : Str
  year : Str
  program : Str
  branch : Str
  rollNo : Str
  submittedAt : Int
deriving DecidableEq

/-- An OTP entry as pushed by `POST /api/forgot-password`
(server.js line 218). -/
structure OtpEntry where
  email : Str
  otp : Str
  expiresAt : Int
deriving DecidableEq

/-- The JSON store (server.js lines 62-80).  The `users` array only gates
whether the OTP endpoints run at all and is not needed by any claim, so it is
omitted. -/
structure DB where
  otps : List OtpEntry
  sessions : List Session
  attendance : List Attendance
deriving DecidableEq

/-- JavaScript truthiness of an optional numeric field: `null`, `undefined`
and `0` are falsy. -/
def jsTruthy (x : Option ℚ) : Bool :=
  match x with
  | none => false
  | some v => v ≠ 0

/-- The expression `x || null` applied to an optional numeric field
(server.js lines 465-466). -/
def jsOrNull (x : Option ℚ) : Option ℚ :=
  if jsTruthy x then x else none

/-- The guard `activeSession.lat && activeSession.lon` of the geofence branch
(server.js line 409).  The branch itself is unreachable (see `submit`), the
guard is kept to state which sessions would carry a geofence. -/
def geofenceGuard (s : Session) : Bool :=
  jsTruthy s.lat && jsTruthy s.lon

/-- `cleanOldData()` (server.js lines 83-96), with the wall clock passed
explicitly: removes every session whose `createdAt` is strictly older than
`now` minus two days, and every attendance row whose `sessionId` is among the
removed ids; does nothing when no session qualifies. -/
def cleanOldData (now : Int) (db : DB) : DB :=
  let twoDaysAgo := now - 2 * 24 * 60 * 60 * 1000
  let oldSessionIds := (db.sessions.filter (fun s => s.createdAt < twoDaysAgo)).map (fun s => s.id)
  if oldSessionIds = [] then db
  else
    { db with
      sessions := db.sessions.filter (fun s => s.id ∉ oldSessionIds),
      attendance := db.attendance.filter (fun a => a.sessionId ∉ oldSessionIds) }

/-- Effect of one tick of the expiry interval on a single session
(server.js lines 1137-1145). -/
def expireSweepS (nowMs : Int) (s : Session) : Session :=
  if s.active = true ∧ nowMs - s.id > 10 * 60 * 1000 then
    { s with active := false, stoppedAt := some (s.id + 10 * 60 * 1000) }
  else s

/-- One run of the auto-expiry `setInterval` callback
(server.js lines 1134-1147). -/
def expireSweep (nowMs : Int) (db : DB) : DB :=
  { db with sessions := db.sessions.map (expireSweepS nowMs) }

/-- `POST /api/start-session` (server.js lines 449-477), with the wall clock
and the generated random code passed explicitly.  Returns the success flag
and the new store. -/
def startSession (now : Int) (sessionName code : Str) (lat lon : Option ℚ) (db : DB) :
    Bool × DB :=
  if sessionName = [] ∨ jsTrim sessionName = [] then (false, db)
  else
    (true,
     { db with
       sessions := db.sessions ++
         [{ id := now, name := jsTrim sessionName, code := code, createdAt := now,
            active := true, stoppedAt := none,
            lat := jsOrNull lat, lon := jsOrNull lon }] })

/-- The request body of `POST /submit`; `[]` stands for an absent or empty
(hence falsy) string field. -/
structure SubmitReq where
  email : Str
  name : Str
  sessionCode : Str
  lat : Option ℚ
  lon : Option ℚ
deriving DecidableEq

/-- Observable outcome of `POST /submit`.  `refErrorDup` is the uncaught
`ReferenceError: dup is not defined` thrown at server.js line 398; because of
it the outcomes of lines 402-443 (expired, location required, too far,
recorded) can never be produced and have no constructor. -/
inductive SubmitResult where
  | missingFields
  | domainRejected
  | sessionEnded
  | noActiveSession
  | refErrorDup
deriving DecidableEq

/-- `POST /submit` (server.js lines 361-443).  Field check, domain check and
session resolution follow the source; the first time control reaches the
statement `if (dup)` at line 398 the handler throws, hence every path that
survives the stopped-session check ends in `refErrorDup` with the store
unchanged. -/
def submit (req : SubmitReq) (db : DB) : SubmitResult × DB :=
  if req.email = [] ∨ req.name = [] then (.missingFields, db)
  else
    let emailLower := jsTrim (jsToLower req.email)
    if jsEndsWith emailLower ('@' :: ALLOWED_EMAIL_DOMAIN) = false then (.domainRejected, db)
    else if req.sessionCode ≠ [] then
      match db.sessions.find? (fun s => s.code = req.sessionCode) with
      | some s => if s.stoppedAt.isSome then (.sessionEnded, db) else (.refErrorDup, db)
      | none => (.noActiveSession, db)
    else
      match db.sessions.find? (fun s => s.active) with
      | some _ => (.refErrorDup, db)
      | none => (.noActiveSession, db)

/-- `email.toLowerCase().trim()` as computed by the auth endpoints. -/
def emailKey (email : Str) : Str := jsTrim (jsToLower email)

/-- Effect of `POST /api/forgot-password` on `db.otps`
(server.js lines 214-218): drop every entry with the same stored email, then
push the fresh OTP expiring ten minutes from now. -/
def forgotPasswordOtps (now : Int) (email otp : Str) (otps : List OtpEntry) :
    List OtpEntry :=
  (otps.filter (fun o => o.email ≠ emailKey email)) ++
    [{ email := emailKey email, otp := otp, expiresAt := now + 10 * 60 * 1000 }]

/-- Effect of `POST /api/reset-password` on `db.otps` in the branches that
touch it (server.js lines 269 and 282): drop every entry with the same
stored email. -/
def resetPasswordOtps (email : Str) (otps : List OtpEntry) : List OtpEntry :=
  otps.filter (fun o => o.email ≠ emailKey email)

/-- The OTP states reachable from a fresh store (no `data.json`) through the
endpoints that modify `db.otps`. -/
inductive OtpReachable : List OtpEntry → Prop
  | init : OtpReachable []
  | forgot (now : Int) (email otp : Str) {l : List OtpEntry} :
      OtpReachable l → OtpReachable (forgotPasswordOtps now email otp l)
  | reset (email : Str) {l : List OtpEntry} :
      OtpReachable l → OtpReachable (resetPasswordOtps email l)

/-- Declarative reading of the roll pattern from the specification: the
(lowercased) local part splits into four digits, `ug` or `pg`
(case-insensitive), two to four letters, and one or more digits. -/
def RollPattern (l y p b r : Str) : Prop :=
  l = y ++ p ++ b ++ r ∧
  y.length = 4 ∧ y.all isDigitC = true ∧
  isProgCI p = true ∧
  b.all isLetterCI = true ∧ 2 ≤ b.length ∧ b.length ≤ 4 ∧
  r ≠ [] ∧ r.all isDigitC = true

instance (l y p b r : Str) : Decidable (RollPattern l y p b r) := by
  unfold RollPattern
  infer_instance

/-- A fresh, active, unstopped, geofence-free session (claim C1). -/
def sampleSession1 : Session :=
  { id := 0, name := "Lecture 1".toList, code := "abcd1234".toList, createdAt := 0,
    active := true, stoppedAt := none, lat := none, lon := none }

/-- Store holding only `sampleSession1`. -/
def sampleDb1 : DB := { otps := [], sessions := [sampleSession1], attendance := [] }

/-- A well-formed submission to `sampleSession1`: allowed domain, nonempty name. -/
def sampleReq1 : SubmitReq :=
  { email := "2046ugcm300@nitjsr.ac.in".toList, name := "Asha Kumari".toList,
    sessionCode := "abcd1234".toList, lat := none, lon := none }

/-- A session that was explicitly stopped (`stoppedAt` set). -/
def stoppedSession : Session :=
  { id := 100, name := "Old".toList, code := "aaaa1111".toList, createdAt := 100,
    active := false, stoppedAt := some 700100, lat := none, lon := none }

/-- A session that is inactive but was never stopped (merely superseded). -/
def supersededSession : Session :=
  { id := 200, name := "Mid".toList, code := "bbbb2222".toList, createdAt := 200,
    active := false, stoppedAt := none, lat := none, lon := none }

/-- A later session that is currently active. -/
def laterActiveSession : Session :=
  { id := 300, name := "New".toList, code := "cccc3333".toList, createdAt := 300,
    active := true, stoppedAt := none, lat := none, lon := none }

/-- Store with a stopped, a superseded and an active session (claim C2). -/
def sampleDb2 : DB :=
  { otps := [], sessions := [stoppedSession, supersededSession, laterActiveSession],
    attendance := [] }

/-- A well-formed submission carrying the code of the stopped session. -/
def reqToStopped : SubmitReq :=
  { email := "2046ugcm300@nitjsr.ac.in".toList, name := "Asha Kumari".toList,
    sessionCode := "aaaa1111".toList, lat := none, lon := none }

/-- A well-formed submission carrying the code of the superseded session. -/
def reqToSuperseded : SubmitReq :=
  { email := "2046ugcm300@nitjsr.ac.in".toList, name := "Asha Kumari".toList,
    sessionCode := "bbbb2222".toList, lat := none, lon := none }

/-- A geofence-free session created at time 0 (claim C3). -/
def sampleSession3 : Session :=
  { id := 0, name := "Tutorial".toList, code := "dddd4444".toList, createdAt := 0,
    active := true, stoppedAt := none, lat := none, lon := none }

/-- Store holding only `sampleSession3`. -/
def sampleDb3 : DB := { otps := [], sessions := [sampleSession3], attendance := [] }

/-- A well-formed submission to `sampleSession3`. -/
def sampleReq3 : SubmitReq :=
  { email := "2046ugcm300@nitjsr.ac.in".toList, name := "Asha Kumari".toList,
    sessionCode := "dddd4444".toList, lat := none, lon := none }

/-- An active session whose `createdAt` lies more than two days in the past
of the sweep run considered in claim C5. -/
def oldActiveSession : Session :=
  { id := 1, name := "Stale".toList, code := "eeee5555".toList, createdAt := 0,
    active := true, stoppedAt := none, lat := none, lon := none }

/-- An attendance row belonging to `oldActiveSession`. -/
def oldAttendanceRow : Attendance :=
  { sessionId := 1, email := "2046ugcm300@nitjsr.ac.in".toList,
    name := "Asha Kumari".toList, regNo := "2046UGCM300".toList,
    year := "2046".toList, program := "UG".toList, branch := "CM".toList,
    rollNo := "300".toList, submittedAt := 50 }

/-- Store holding the old active session and its attendance (claim C5). -/
def sampleDb5 : DB :=
  { otps := [], sessions := [oldActiveSession], attendance := [oldAttendanceRow] }

/-- An active geofenced session (truthy `lat` and `lon`, claim C10). -/
def geoSession : Session :=
  { id := 400, name := "Geo".toList, code := "ffff6666".toList, createdAt := 400,
    active := true, stoppedAt := none, lat := some 1, lon := some 1 }

/-- Store holding only `geoSession`. -/
def sampleDb10 : DB := { otps := [], sessions := [geoSession], attendance := [] }

/-- A submission to `geoSession` that supplies coordinates, with latitude
equal to 0 (claim C10). -/
def sampleReq10 : SubmitReq :=
  { email := "2046ugcm300@nitjsr.ac.in".toList, name := "Asha Kumari".toList,
    sessionCode := "ffff6666".toList, lat := some 0, lon := some 5 }

/-!  Theorems settling the claims. -/

/-- C1 (code bug): the spec demands that a second submission with the same
`(sessionCode, email)` succeed once and then fail with the
duplicate-submission error, via a duplicate check on `(sessionId, email)`.
The code has no such check: line 398 reads the undeclared variable `dup`
and throws `ReferenceError`, so even the first well-formed submission to an
active, unstopped, fresh session ends in the reference error, the store is
unchanged, and a repeated identical submission ends in the same reference
error — success is never produced and neither is a duplicate error. -/
theorem claim_C1_dup_reference_error :
    submit sampleReq1 sampleDb1 = (SubmitResult.refErrorDup, sampleDb1) ∧
    submit sampleReq1 (submit sampleReq1 sampleDb1).2 =
      (SubmitResult.refErrorDup, sampleDb1) := by
  decide

/-- C2 (code bug): a submission carrying the code of an explicitly stopped
session is indeed answered with the session-ended error even while another
session is active (first conjunct, as the claim states); but a submission to
a merely superseded session (inactive, no `stoppedAt`) is not accepted as the
claim states: it passes the stopped-session check and then dies in the
`ReferenceError` of the undeclared `dup` at line 398. -/
theorem claim_C2_stopped_vs_superseded :
    submit reqToStopped sampleDb2 = (SubmitResult.sessionEnded, sampleDb2) ∧
    submit reqToSuperseded sampleDb2 = (SubmitResult.refErrorDup, sampleDb2) := by
  decide

/-- C3 (code bug): the claim says a well-formed submission to a fresh
geofence-free session is accepted before `T + 10` minutes and answered with
the session-expired error afterwards.  The time-window check of line 404 is
unreachable: the handler throws the `dup` `ReferenceError` first, so the
outcome of a well-formed submission is the reference error.  `submit` does
not even consume a clock, so this outcome is the same at every `now` — the
code neither accepts early submissions nor reports expiry for late ones. -/
theorem claim_C3_time_window_unreachable :
    submit sampleReq3 sampleDb3 = (SubmitResult.refErrorDup, sampleDb3) := by
  decide

/-- Pointwise idempotence of the expiry step: a session the step has already
deactivated (or left alone) is not changed by running the step again. -/
theorem expireSweepS_idem (now : Int) (s : Session) :
    expireSweepS now (expireSweepS now s) = expireSweepS now s := by
  by_cases h : s.active = true ∧ now - s.id > 10 * 60 * 1000
  · simp only [expireSweepS, if_pos h]
    rw [if_neg]
    intro hc
    simp at hc
  · simp only [expireSweepS, if_neg h]

/-- Running the expiry sweep twice at the same instant equals running it
once. -/
theorem expireSweep_idem (now : Int) (db : DB) :
    expireSweep now (expireSweep now db) = expireSweep now db := by
  simp only [expireSweep, List.map_map]
  congr 1
  refine List.map_congr_left fun s _ => ?_
  exact expireSweepS_idem now s

/-- C4: one run of the expiry sweep turns every session with `active = true`
and `now - id` beyond ten minutes into an inactive session whose `stoppedAt`
is exactly `id + 10` minutes, a value derived from the creation timestamp
and not from the wall clock of the sweep; a session that is already inactive
is never touched, at any sweep time, and a second run of the sweep at the
same instant changes nothing. -/
theorem claim_C4_expiry_sweep (now now2 : Int) (s : Session) (db : DB) :
    (s.active = true → now - s.id > 10 * 60 * 1000 →
      expireSweepS now s =
        { s with active := false, stoppedAt := some (s.id + 10 * 60 * 1000) }) ∧
    (s.active = false → expireSweepS now2 s = s) ∧
    expireSweep now (expireSweep now db) = expireSweep now db := by
  refine ⟨fun ha ht => ?_, fun ha => ?_, expireSweep_idem now db⟩
  · simp only [expireSweepS, if_pos (And.intro ha ht)]
  · simp only [expireSweepS]
    rw [if_neg]
    intro hc
    rw [ha] at hc
    simp at hc

/-- Witness for C4 at a concrete expired session and store. -/
theorem claim_C4_expiry_sweep_witness :
    expireSweepS 600001 sampleSession1 =
      { sampleSession1 with
        active := false, stoppedAt := some (sampleSession1.id + 10 * 60 * 1000) } ∧
    expireSweep 600001 (expireSweep 600001 sampleDb1) = expireSweep 600001 sampleDb1 :=
  ⟨(claim_C4_expiry_sweep 600001 0 sampleSession1 sampleDb1).1 (by decide) (by decide),
   (claim_C4_expiry_sweep 600001 0 sampleSession1 sampleDb1).2.2⟩

/-- Any session older than the two-day cutoff is removed by `cleanOldData`,
together with every attendance row keyed by its id — the `active` flag plays
no role in the filter. -/
theorem cleanOldData_removes (now : Int) (db : DB) (s : Session)
    (hs : s ∈ db.sessions) (h : s.createdAt < now - 2 * 24 * 60 * 60 * 1000) :
    (∀ t ∈ (cleanOldData now db).sessions, t.id ≠ s.id) ∧
    (∀ a ∈ (cleanOldData now db).attendance, a.sessionId ≠ s.id) := by
  have hmem : s.id ∈ (db.sessions.filter
      (fun t => decide (t.createdAt < now - 2 * 24 * 60 * 60 * 1000))).map
        (fun t => t.id) :=
    List.mem_map.mpr ⟨s, List.mem_filter.mpr ⟨hs, decide_eq_true h⟩, rfl⟩
  simp only [cleanOldData]
  split
  · next hnil =>
      rw [hnil] at hmem
      exact absurd hmem (List.not_mem_nil _)
  · constructor
    · intro t ht heq
      have hk := (List.mem_filter.mp ht).2
      have hk2 := of_decide_eq_true hk
      rw [heq] at hk2
      exact hk2 hmem
    · intro a ha heq
      have hk := (List.mem_filter.mp ha).2
      have hk2 := of_decide_eq_true hk
      rw [heq] at hk2
      exact hk2 hmem

/-- A session none of whose id-mates (itself included) is older than the
cutoff survives `cleanOldData`, and so do all its attendance rows. -/
theorem cleanOldData_keeps (now : Int) (db : DB) (s : Session)
    (hs : s ∈ db.sessions)
    (hid : ∀ t ∈ db.sessions, t.id = s.id →
      ¬ (t.createdAt < now - 2 * 24 * 60 * 60 * 1000)) :
    s ∈ (cleanOldData now db).sessions ∧
    ∀ a ∈ db.attendance, a.sessionId = s.id →
      a ∈ (cleanOldData now db).attendance := by
  have hnot : s.id ∉ (db.sessions.filter
      (fun t => decide (t.createdAt < now - 2 * 24 * 60 * 60 * 1000))).map
        (fun t => t.id) := by
    intro hmem
    obtain ⟨t, htf, hte⟩ := List.mem_map.mp hmem
    obtain ⟨htm, htc⟩ := List.mem_filter.mp htf
    exact hid t htm hte (of_decide_eq_true htc)
  simp only [cleanOldData]
  split
  · exact ⟨hs, fun a ha _ => ha⟩
  · refine ⟨List.mem_filter.mpr ⟨hs, decide_eq_true hnot⟩,
      fun a ha hid2 => List.mem_filter.mpr ⟨ha, ?_⟩⟩
    rw [hid2]
    exact decide_eq_true hnot

/-- C5, counterexample: the retention sweep does remove a session whose
`active` flag is true.  `cleanOldData` filters on `createdAt` alone, so a run
one millisecond past the two-day cutoff deletes the active session and its
attendance rows, refuting the claim that active sessions survive unchanged. -/
theorem claim_C5_counterexample :
    oldActiveSession.active = true ∧
    oldActiveSession ∈ sampleDb5.sessions ∧
    oldActiveSession ∉ (cleanOldData 172800001 sampleDb5).sessions ∧
    (cleanOldData 172800001 sampleDb5).attendance = [] := by
  decide

/-- C5, amended: the retention sweep removes every session whose `createdAt`
is older than `now` minus two days regardless of its `active` flag — the
currently active session included — together with every attendance row whose
`sessionId` is the id of such a session. -/
theorem claim_C5_amended (now : Int) (db : DB) (s : Session)
    (hs : s ∈ db.sessions) (h : s.createdAt < now - 2 * 24 * 60 * 60 * 1000) :
    (∀ t ∈ (cleanOldData now db).sessions, t.id ≠ s.id) ∧
    (∀ a ∈ (cleanOldData now db).attendance, a.sessionId ≠ s.id) :=
  cleanOldData_removes now db s hs h

/-- Witness for the amended C5 at the concrete old active session. -/
theorem claim_C5_amended_witness :
    (∀ t ∈ (cleanOldData 172800001 sampleDb5).sessions, t.id ≠ oldActiveSession.id) ∧
    (∀ a ∈ (cleanOldData 172800001 sampleDb5).attendance,
      a.sessionId ≠ oldActiveSession.id) :=
  claim_C5_amended 172800001 sampleDb5 oldActiveSession (by decide) (by decide)

/-- C6: for a session `s` of a store whose session ids identify sessions
uniquely, a retention sweep run at `createdAt + 2 days + 1 ms` removes `s`
and every attendance row carrying its id, while a run at
`createdAt + 2 days - 1 ms` keeps `s` and all of its attendance rows. -/
theorem claim_C6_retention_boundary (db : DB) (s : Session)
    (hs : s ∈ db.sessions)
    (huniq : ∀ t ∈ db.sessions, t.id = s.id → t = s) :
    ((∀ t ∈ (cleanOldData (s.createdAt + 2 * 24 * 60 * 60 * 1000 + 1) db).sessions,
        t.id ≠ s.id) ∧
     (∀ a ∈ (cleanOldData (s.createdAt + 2 * 24 * 60 * 60 * 1000 + 1) db).attendance,
        a.sessionId ≠ s.id)) ∧
    (s ∈ (cleanOldData (s.createdAt + 2 * 24 * 60 * 60 * 1000 - 1) db).sessions ∧
     ∀ a ∈ db.attendance, a.sessionId = s.id →
       a ∈ (cleanOldData (s.createdAt + 2 * 24 * 60 * 60 * 1000 - 1) db).attendance) := by
  constructor
  · exact cleanOldData_removes _ db s hs (by omega)
  · refine cleanOldData_keeps _ db s hs ?_
    intro t ht hte
    have := huniq t ht hte
    subst this
    omega

/-- Witness for C6 at the concrete store of one old session. -/
theorem claim_C6_retention_boundary_witness :
    ((∀ t ∈ (cleanOldData (oldActiveSession.createdAt + 2 * 24 * 60 * 60 * 1000 + 1)
        sampleDb5).sessions, t.id ≠ oldActiveSession.id) ∧
     (∀ a ∈ (cleanOldData (oldActiveSession.createdAt + 2 * 24 * 60 * 60 * 1000 + 1)
        sampleDb5).attendance, a.sessionId ≠ oldActiveSession.id)) ∧
    (oldActiveSession ∈ (cleanOldData
        (oldActiveSession.createdAt + 2 * 24 * 60 * 60 * 1000 - 1) sampleDb5).sessions ∧
     ∀ a ∈ sampleDb5.attendance, a.sessionId = oldActiveSession.id →
       a ∈ (cleanOldData
        (oldActiveSession.createdAt + 2 * 24 * 60 * 60 * 1000 - 1) sampleDb5).attendance) :=
  claim_C6_retention_boundary sampleDb5 oldActiveSession (by decide) (by decide)

/-- The JavaScript expression `0 || null` stores `null`. -/
theorem jsOrNull_some_zero : jsOrNull (some 0) = none := by decide

/-- A session without a stored latitude never passes the geofence guard. -/
theorem geofenceGuard_of_lat_none (s : Session) (h : s.lat = none) :
    geofenceGuard s = false := by
  simp [geofenceGuard, jsTruthy, h]

/-- A session without a stored longitude never passes the geofence guard. -/
theorem geofenceGuard_of_lon_none (s : Session) (h : s.lon = none) :
    geofenceGuard s = false := by
  simp [geofenceGuard, jsTruthy, h]

/-- C10 (code bug): the first two conjuncts hold as claimed — a start-session
request whose latitude (resp. longitude) equals 0 stores that coordinate as
`null` because of the falsy coercion `lat || null`, so the stored session
fails the geofence guard and can never demand proximity.  The third conjunct
refutes the submission half of the claim: a submission to a geofenced session
that supplies a latitude equal to 0 is not answered with the
location-required error, because the geofence branch at lines 408-420 sits
after the `dup` read of line 398 and the handler dies in the `ReferenceError`
first. -/
theorem claim_C10_zero_coords (now : Int) (name code : Str) (lat lon : Option ℚ)
    (db : DB) (h : jsTrim name ≠ []) :
    (∃ s, (startSession now name code (some 0) lon db).2.sessions =
        db.sessions ++ [s] ∧ s.lat = none ∧ geofenceGuard s = false) ∧
    (∃ s, (startSession now name code lat (some 0) db).2.sessions =
        db.sessions ++ [s] ∧ s.lon = none ∧ geofenceGuard s = false) ∧
    submit sampleReq10 sampleDb10 = (SubmitResult.refErrorDup, sampleDb10) := by
  have hcond : ¬ (name = [] ∨ jsTrim name = []) := by
    rintro (h1 | h2)
    · subst h1
      exact h rfl
    · exact h h2
  refine ⟨⟨{ id := now, name := jsTrim name, code := code, createdAt := now,
             active := true, stoppedAt := none,
             lat := jsOrNull (some 0), lon := jsOrNull lon }, ?_, ?_, ?_⟩,
          ⟨{ id := now, name := jsTrim name, code := code, createdAt := now,
             active := true, stoppedAt := none,
             lat := jsOrNull lat, lon := jsOrNull (some 0) }, ?_, ?_, ?_⟩,
          by decide⟩
  · simp only [startSession, if_neg hcond]
  · exact jsOrNull_some_zero
  · exact geofenceGuard_of_lat_none _ jsOrNull_some_zero
  · simp only [startSession, if_neg hcond]
  · exact jsOrNull_some_zero
  · exact geofenceGuard_of_lon_none _ jsOrNull_some_zero

/-- Witness for C10 at concrete request values. -/
theorem claim_C10_zero_coords_witness :
    (∃ s, (startSession 5 "Physics".toList "gggg7777".toList (some 0) (some 3)
        sampleDb1).2.sessions = sampleDb1.sessions ++ [s] ∧ s.lat = none ∧
        geofenceGuard s = false) ∧
    (∃ s, (startSession 5 "Physics".toList "gggg7777".toList (some 2) (some 0)
        sampleDb1).2.sessions = sampleDb1.sessions ++ [s] ∧ s.lon = none ∧
        geofenceGuard s = false) ∧
    submit sampleReq10 sampleDb10 = (SubmitResult.refErrorDup, sampleDb10) :=
  claim_C10_zero_coords 5 "Physics".toList "gggg7777".toList (some 2) (some 3)
    sampleDb1 (by decide)

/-- Decoding `Char.ofNat` below the surrogate range. -/
theorem toNat_ofNat_valid {n : Nat} (h : n < 55296) : (Char.ofNat n).toNat = n := by
  have hv : n.isValidChar := Or.inl h
  simp only [Char.ofNat, hv, dif_pos]
  rfl

/-- The digit class and the (case-insensitive) letter class of the roll regex
are disjoint. -/
theorem isDigitC_not_isLetterCI {c : Char} (h : isDigitC c = true) :
    isLetterCI c = false := by
  unfold isDigitC at h
  have hd := of_decide_eq_true h
  unfold isLetterCI
  apply decide_eq_false
  rintro (⟨h1, h2⟩ | ⟨h1, h2⟩) <;> omega

/-- `takeWhile`/`dropWhile` recover the two halves of `b ++ r` when every
element of `b` satisfies the predicate and the head of `r` does not. -/
theorem takeWhile_dropWhile_append (q : Char → Bool) (b r : Str)
    (hb : ∀ c ∈ b, q c = true) (hr : ∀ c, r.head? = some c → q c = false) :
    (b ++ r).takeWhile q = b ∧ (b ++ r).dropWhile q = r := by
  induction b with
  | nil =>
    cases r with
    | nil => exact ⟨rfl, rfl⟩
    | cons c t =>
      have hc := hr c rfl
      simp [List.takeWhile_cons, List.dropWhile_cons, hc]
  | cons a tb ih =>
    have ha := hb a (List.mem_cons_self a tb)
    have ih2 := ih (fun c hc => hb c (List.mem_cons_of_mem a hc))
    simp [List.takeWhile_cons, List.dropWhile_cons, ha, ih2.1, ih2.2]

/-- A string passing the `(ug|pg)` alternative has exactly two characters. -/
theorem isProgCI_length {p : Str} (h : isProgCI p = true) : p.length = 2 := by
  unfold isProgCI at h
  rcases of_decide_eq_true h with h2 | h2 <;>
    simpa using congrArg List.length h2

/-- Completeness of the matcher: any decomposition of the input in the shape
of the roll pattern is found (and therefore the decomposition is unique). -/
theorem matchRoll_complete {l y p b r : Str} (h : RollPattern l y p b r) :
    matchRoll l = some (y, p, b, r) := by
  obtain ⟨hl, hy4, hyd, hp, hbl, hb2, hb4, hrne, hrd⟩ := h
  have hplen : p.length = 2 := isProgCI_length hp
  have hassoc : l = y ++ (p ++ (b ++ r)) := by simp [hl, List.append_assoc]
  have e1 : l.take 4 = y := by
    rw [hassoc, ← hy4]
    exact List.take_left _ _
  have e2 : l.drop 4 = p ++ (b ++ r) := by
    rw [hassoc, ← hy4]
    exact List.drop_left _ _
  have e3 : (p ++ (b ++ r)).take 2 = p := by
    rw [← hplen]
    exact List.take_left _ _
  have e4 : (p ++ (b ++ r)).drop 2 = b ++ r := by
    rw [← hplen]
    exact List.drop_left _ _
  have hhead : ∀ c, r.head? = some c → isLetterCI c = false := by
    intro c hc
    have hcm : c ∈ r := by
      cases r with
      | nil => simp at hc
      | cons x t =>
        simp only [List.head?_cons, Option.some.injEq] at hc
        subst hc
        exact List.mem_cons_self _ _
    exact isDigitC_not_isLetterCI (List.all_eq_true.mp hrd c hcm)
  have e56 := takeWhile_dropWhile_append isLetterCI b r
    (fun c hc => List.all_eq_true.mp hbl c hc) hhead
  simp only [matchRoll, e1, e2, e3, e4, e56.1, e56.2]
  rw [if_pos]
  exact ⟨hy4, hyd, hp, hb2, hb4, hrne, hrd⟩

/-- Soundness of the matcher: a successful match is a decomposition in the
shape of the roll pattern. -/
theorem matchRoll_sound {l y p b r : Str}
    (h : matchRoll l = some (y, p, b, r)) : RollPattern l y p b r := by
  simp only [matchRoll] at h
  split at h
  · next hc =>
      obtain ⟨hc1, hc2, hc3, hc4, hc5, hc6, hc7⟩ := hc
      rw [Option.some.injEq, Prod.mk.injEq, Prod.mk.injEq, Prod.mk.injEq] at h
      obtain ⟨h1, h2, h3, h4⟩ := h
      subst h1
      subst h2
      subst h3
      subst h4
      refine ⟨?_, hc1, hc2, hc3, ?_, hc4, hc5, hc6, hc7⟩
      · rw [List.append_assoc, List.append_assoc, List.takeWhile_append_dropWhile,
          List.take_append_drop, List.take_append_drop]
      · exact List.all_eq_true.mpr fun c hc => List.mem_takeWhile_imp hc
  · exact absurd h (by simp)

/-- C7 (confirmed): the roll parser agrees with the reference definition.
When the lowercased local part of the email decomposes as four digits,
`ug`/`pg`, two to four letters and a nonempty digit tail, the parser returns
exactly those groups with program and branch uppercased and the full
local part uppercased as `rollNumber`; when no such decomposition exists it
returns the sentinel `-` in every field except `rollNumber`; and the
specification example parses as stated. -/
theorem claim_C7_parser_reference :
    (∀ e y p b r, RollPattern (jsToLower (beforeAt e)) y p b r →
       parseRollInfo e =
         { year := y, program := jsToUpper p, branch := jsToUpper b,
           rollNo := r, rollNumber := jsToUpper (jsToLower (beforeAt e)) }) ∧
    (∀ e, (∀ y p b r, ¬ RollPattern (jsToLower (beforeAt e)) y p b r) →
       parseRollInfo e =
         { year := ['-'], program := ['-'], branch := ['-'], rollNo := ['-'],
           rollNumber := jsToUpper (jsToLower (beforeAt e)) }) ∧
    parseRollInfo "2046ugcm300@nitjsr.ac.in".toList =
      { year := "2046".toList, program := "UG".toList, branch := "CM".toList,
        rollNo := "300".toList, rollNumber := "2046UGCM300".toList } := by
  refine ⟨?_, ?_, by decide⟩
  · intro e y p b r h
    unfold parseRollInfo parseLocal
    rw [matchRoll_complete h]
  · intro e h
    unfold parseRollInfo parseLocal
    cases hm : matchRoll (jsToLower (beforeAt e)) with
    | none => rfl
    | some t =>
      obtain ⟨y, p, b, r⟩ := t
      exact absurd (matchRoll_sound hm) (h y p b r)

/-- Witness for C7 at the specification example. -/
theorem claim_C7_parser_reference_witness :
    RollPattern (jsToLower (beforeAt "2046ugcm300@nitjsr.ac.in".toList))
      "2046".toList "ug".toList "cm".toList "300".toList ∧
    parseRollInfo "2046ugcm300@nitjsr.ac.in".toList =
      { year := "2046".toList, program := jsToUpper "ug".toList,
        branch := jsToUpper "cm".toList, rollNo := "300".toList,
        rollNumber := jsToUpper (jsToLower
          (beforeAt "2046ugcm300@nitjsr.ac.in".toList)) } :=
  ⟨by decide, claim_C7_parser_reference.1 _ _ _ _ _ (by decide)⟩

/-- ASCII lowering is idempotent on characters. -/
theorem jsLowerChar_idem (c : Char) : jsLowerChar (jsLowerChar c) = jsLowerChar c := by
  unfold jsLowerChar
  by_cases h : 65 ≤ c.toNat ∧ c.toNat ≤ 90
  · rw [if_pos h]
    have hval : (Char.ofNat (c.toNat + 32)).toNat = c.toNat + 32 :=
      toNat_ofNat_valid (by omega)
    rw [if_neg]
    rw [hval]
    omega
  · rw [if_neg h, if_neg h]

/-- ASCII lowering maps no character other than `@` to `@`. -/
theorem jsLowerChar_eq_at_iff (c : Char) : jsLowerChar c = '@' ↔ c = '@' := by
  unfold jsLowerChar
  by_cases h : 65 ≤ c.toNat ∧ c.toNat ≤ 90
  · rw [if_pos h]
    constructor
    · intro hc
      exfalso
      have hn := congrArg Char.toNat hc
      rw [toNat_ofNat_valid (by omega)] at hn
      have h64 : ('@' : Char).toNat = 64 := by decide
      rw [h64] at hn
      omega
    · intro hc
      exfalso
      subst hc
      revert h
      decide
  · rw [if_neg h]

/-- Splitting at `@` commutes with lowering. -/
theorem beforeAt_lower_comm (s : Str) :
    beforeAt (jsToLower s) = jsToLower (beforeAt s) := by
  unfold beforeAt jsToLower
  rw [List.takeWhile_map]
  have hpred : ((fun c => c != '@') ∘ jsLowerChar) = (fun c => c != '@') := by
    funext c
    simp only [Function.comp]
    by_cases hc : c = '@'
    · subst hc
      decide
    · have h2 : jsLowerChar c ≠ '@' := fun he => hc ((jsLowerChar_eq_at_iff c).mp he)
      have hb1 : (jsLowerChar c == '@') = false := beq_eq_false_iff_ne.mpr h2
      have hb2 : (c == '@') = false := beq_eq_false_iff_ne.mpr hc
      simp [bne, hb1, hb2]
  rw [hpred]

/-- C8 (confirmed): the parser is a total function of the email string, and
emails that agree after lowering — in particular emails differing only in
letter case — parse to the same identity record. -/
theorem claim_C8_case_insensitive :
    (∀ e : Str, ∃ info, parseRollInfo e = info) ∧
    (∀ u v : Str, jsToLower u = jsToLower v → parseRollInfo u = parseRollInfo v) := by
  refine ⟨fun e => ⟨_, rfl⟩, fun u v h => ?_⟩
  unfold parseRollInfo
  rw [← beforeAt_lower_comm, ← beforeAt_lower_comm, h]

/-- Witness for C8: the fully uppercased variant of the example email parses
identically to the lowercase original. -/
theorem claim_C8_case_insensitive_witness :
    parseRollInfo "2046UGCM300@NITJSR.AC.IN".toList =
      parseRollInfo "2046ugcm300@nitjsr.ac.in".toList :=
  claim_C8_case_insensitive.2 _ _ (by decide)

/-- Lists map to themselves under a function fixing all their elements. -/
theorem map_eq_self_of_fixed {f : Char → Char} {s : Str}
    (h : ∀ c ∈ s, f c = c) : s.map f = s := by
  induction s with
  | nil => rfl
  | cons a t ih =>
    simp only [List.map_cons, h a (List.mem_cons_self a t), List.cons.injEq, true_and]
    exact ih fun c hc => h c (List.mem_cons_of_mem a hc)

/-- Trimming returns a subset of the characters. -/
theorem mem_of_mem_jsTrim {c : Char} {s : Str} (h : c ∈ jsTrim s) : c ∈ s := by
  unfold jsTrim at h
  have h1 := List.mem_reverse.mp h
  have h2 := (List.dropWhile_sublist _).subset h1
  have h3 := List.mem_reverse.mp h2
  exact (List.dropWhile_sublist _).subset h3

/-- The stored email of the auth endpoints, `email.toLowerCase().trim()`, is
a fixed point of lowering. -/
theorem jsToLower_emailKey (e : Str) : jsToLower (emailKey e) = emailKey e := by
  unfold emailKey
  apply map_eq_self_of_fixed
  intro c hc
  have hcl : c ∈ jsToLower e := mem_of_mem_jsTrim hc
  obtain ⟨d, _, rfl⟩ := List.mem_map.mp hcl
  exact jsLowerChar_idem d

/-- Invariant of the reachable OTP stores: every stored email is
lower-normalized and the stored emails are pairwise distinct. -/
theorem otpInv {l : List OtpEntry} (h : OtpReachable l) :
    (∀ o ∈ l, jsToLower o.email = o.email) ∧
    l.Pairwise (fun a b => a.email ≠ b.email) := by
  induction h with
  | init => exact ⟨fun o ho => absurd ho (List.not_mem_nil o), List.Pairwise.nil⟩
  | forgot now email otp _ ih =>
    obtain ⟨hn, hu⟩ := ih
    constructor
    · intro o ho
      rcases List.mem_append.mp ho with hf | hnew
      · exact hn o (List.mem_filter.mp hf).1
      · have ho2 : o = { email := emailKey email, otp := otp, expiresAt := now + 10 * 60 * 1000 } :=
          List.mem_singleton.mp hnew
        subst ho2
        exact jsToLower_emailKey email
    · apply List.pairwise_append.mpr
      refine ⟨hu.sublist (List.filter_sublist _), List.pairwise_singleton _ _, ?_⟩
      intro a ha b hb
      have hb' : b = { email := emailKey email, otp := otp, expiresAt := now + 10 * 60 * 1000 } :=
        List.mem_singleton.mp hb
      subst hb'
      exact of_decide_eq_true (List.mem_filter.mp ha).2
  | reset email _ ih =>
    obtain ⟨hn, hu⟩ := ih
    exact ⟨fun o ho => hn o (List.mem_filter.mp ho).1,
      hu.sublist (List.filter_sublist _)⟩

/-- C9 (confirmed): in every store reachable from the empty one, the OTP
entries have pairwise distinct emails even when compared case-insensitively,
and the insertion performed by forgot-password leaves the fresh OTP as the
single entry whose stored email matches the requested one
(case-insensitively): all previous entries for that email are dropped. -/
theorem claim_C9_otp_unique (l : List OtpEntry) (h : OtpReachable l) :
    l.Pairwise (fun a b => jsToLower a.email ≠ jsToLower b.email) ∧
    (∀ now email otp,
      (forgotPasswordOtps now email otp l).filter
        (fun o => jsToLower o.email = jsToLower (emailKey email)) =
      [{ email := emailKey email, otp := otp, expiresAt := now + 10 * 60 * 1000 }]) := by
  obtain ⟨hn, hu⟩ := otpInv h
  constructor
  · refine List.Pairwise.imp_of_mem ?_ hu
    intro a b ha hb hne
    rw [hn a ha, hn b hb]
    exact hne
  · intro now email otp
    unfold forgotPasswordOtps
    rw [List.filter_append]
    have h1 : (l.filter (fun o => o.email ≠ emailKey email)).filter
        (fun o => jsToLower o.email = jsToLower (emailKey email)) = [] := by
      rw [List.filter_eq_nil_iff]
      intro o ho hq
      have hne := of_decide_eq_true (List.mem_filter.mp ho).2
      have hq' := of_decide_eq_true hq
      rw [hn o (List.mem_filter.mp ho).1, jsToLower_emailKey] at hq'
      exact hne hq'
    have h2 : ([{ email := emailKey email, otp := otp, expiresAt := now + 10 * 60 * 1000 }] :
          List OtpEntry).filter
        (fun o => jsToLower o.email = jsToLower (emailKey email)) =
        [{ email := emailKey email, otp := otp, expiresAt := now + 10 * 60 * 1000 }] := by
      rw [List.filter_cons_of_pos (by exact decide_eq_true rfl), List.filter_nil]
    rw [h1, h2, List.nil_append]

/-- Witness for C9 at a concrete reachable store and a concrete insertion. -/
theorem claim_C9_otp_unique_witness :
    ([({ email := "a@x".toList, otp := "123456".toList, expiresAt := 600000 } :
          OtpEntry)]).Pairwise (fun a b => jsToLower a.email ≠ jsToLower b.email) ∧
    (forgotPasswordOtps 5 "B@y".toList "654321".toList
        [{ email := "a@x".toList, otp := "123456".toList, expiresAt := 600000 }]).filter
        (fun o => jsToLower o.email = jsToLower (emailKey "B@y".toList)) =
      [{ email := emailKey "B@y".toList, otp := "654321".toList, expiresAt := 5 + 10 * 60 * 1000 }] := by
  have hr : OtpReachable
      [({ email := "a@x".toList, otp := "123456".toList, expiresAt := 600000 } : OtpEntry)] := by
    have h0 := OtpReachable.forgot 0 "A@x".toList "123456".toList OtpReachable.init
    have he : forgotPasswordOtps 0 "A@x".toList "123456".toList [] =
        [({ email := "a@x".toList, otp := "123456".toList, expiresAt := 600000 } : OtpEntry)] := by
      decide
    rw [he] at h0
    exact h0
  exact ⟨(claim_C9_otp_unique _ hr).1,
    (claim_C9_otp_unique _ hr).2 5 "B@y".toList "654321".toList⟩

end AttendanceServer
